import Mathlib

/-!
Formal model of the condition-evaluation and dispatch engine of
`mqtt_service.py` (class `MQTTService`), together with the configuration
merge `merge_configs`.

Modelling conventions:
* JSON values (the results of `json.loads` and the values appearing in the
  configuration) are the inductive type `JVal`.  Python dictionaries are
  association lists in insertion order with pairwise-distinct keys, as
  produced by the JSON parser; JSON numbers are exact rationals (the
  Python int/float distinction is immaterial here because `==`, `<`, `>`,
  `<=`, `>=` coincide on mathematically equal ints and floats, and
  `isinstance(v, (int, float))` accepts both).
* Python `bool` is a subclass of `int`: `isinstance(True, int)` holds and
  `True == 1`, which the model reflects via `toNum`.
* Python runtime exceptions (`TypeError`) raised during evaluation are
  modelled with `Except PyErr`: a `.error` result means the Python code
  raises instead of returning.
* `json.loads` itself is external library code; its outcome on a payload
  string is abstracted by `ParseResult` (success with a value, or
  `json.JSONDecodeError`, in which case the source keeps the raw string).
-/

namespace MQTT

/-- A JSON value as produced by `json.loads` (and as written in the
configuration file). -/
inductive JVal where
  | jnull
  | jbool (b : Bool)
  | jnum (q : ℚ)
  | jstr (s : String)
  | jarr (xs : List JVal)
  | jobj (kvs : List (String × JVal))

/-- Python `d[k]` / `d.get(k)` on a dict modelled as an association list:
the value at the first occurrence of key `k`. -/
def lookupJ (k : String) : List (String × JVal) → Option JVal
  | [] => none
  | (k', v) :: rest => if k' = k then some v else lookupJ k rest

/-- Python `k in d` for a dict. -/
def hasKey (k : String) (kvs : List (String × JVal)) : Bool :=
  kvs.any (fun kv => kv.1 == k)

/-- Python `d[k] = v` on a dict: overwrite the existing entry in place,
or append a new entry (insertion order). -/
def setKey : List (String × JVal) → String → JVal → List (String × JVal)
  | [], k, v => [(k, v)]
  | (k', v') :: rest, k, v =>
      if k' = k then (k, v) :: rest else (k', v') :: setKey rest k v

/-- Numeric view of a Python value: `int`/`float` JSON numbers, and `bool`
(a subclass of `int`, with `True == 1`, `False == 0`). -/
def toNum : JVal → Option ℚ
  | .jnum q => some q
  | .jbool b => some (if b then 1 else 0)
  | _ => none

/-- `isinstance(v, (int, float))` — note that Python `bool` passes this
check. -/
def isNum (v : JVal) : Bool := (toNum v).isSome

mutual
/-- Python `==` on JSON values: numbers and booleans compare numerically,
strings and `None` by identity of content, lists elementwise, dicts by
equality of key sets and of the values at each key; values of different
(non-numeric) types are unequal, never an error. -/
def pyEq : JVal → JVal → Bool
  | .jnull, .jnull => true
  | .jbool a, .jbool b => a == b
  | .jbool a, .jnum q => (if a then (1 : ℚ) else 0) == q
  | .jnum q, .jbool b => q == (if b then (1 : ℚ) else 0)
  | .jnum a, .jnum b => a == b
  | .jstr a, .jstr b => a == b
  | .jarr a, .jarr b => pyEqList a b
  | .jobj a, .jobj b => a.length == b.length && pyEqObj a b
  | _, _ => false

/-- Python `==` on lists: same length, elementwise `==`. -/
def pyEqList : List JVal → List JVal → Bool
  | [], [] => true
  | a :: as_, b :: bs => pyEq a b && pyEqList as_ bs
  | _, _ => false

/-- One inclusion of Python dict equality: every entry of the first dict is
matched by an equal value at the same key in the second (combined with the
length check in `pyEq`, this is dict equality for dicts with distinct
keys). -/
def pyEqObj : List (String × JVal) → List (String × JVal) → Bool
  | [], _ => true
  | (k, v) :: rest, b =>
      (match lookupJ k b with
       | some w => pyEq v w
       | none => false) && pyEqObj rest b
end

/-- Python `a > b`: defined numerically when both sides are numeric
(booleans counting as 0/1), lexicographically on two strings, and a
`TypeError` (`none`) otherwise. -/
def pyGt (a b : JVal) : Option Bool :=
  match toNum a, toNum b with
  | some x, some y => some (decide (y < x))
  | _, _ =>
    match a, b with
    | .jstr s, .jstr t => some (decide (t < s))
    | _, _ => none

/-- Python `a < b` (same domain as `pyGt`). -/
def pyLt (a b : JVal) : Option Bool :=
  match toNum a, toNum b with
  | some x, some y => some (decide (x < y))
  | _, _ =>
    match a, b with
    | .jstr s, .jstr t => some (decide (s < t))
    | _, _ => none

/-- Python `a >= b` (same domain as `pyGt`). -/
def pyGe (a b : JVal) : Option Bool :=
  match toNum a, toNum b with
  | some x, some y => some (decide (y ≤ x))
  | _, _ =>
    match a, b with
    | .jstr s, .jstr t => some (decide (t ≤ s))
    | _, _ => none

/-- Python `a <= b` (same domain as `pyGt`). -/
def pyLe (a b : JVal) : Option Bool :=
  match toNum a, toNum b with
  | some x, some y => some (decide (x ≤ y))
  | _, _ =>
    match a, b with
    | .jstr s, .jstr t => some (decide (s ≤ t))
    | _, _ => none

/-- A Python exception escaping `should_execute_script`. -/
inductive PyErr where
  | typeError
  | keyError
deriving DecidableEq

instance {ε α : Type} [DecidableEq ε] [DecidableEq α] :
    DecidableEq (Except ε α) := fun a b =>
  match a, b with
  | .ok x, .ok y =>
      if h : x = y then isTrue (by rw [h]) else isFalse (by simp [h])
  | .error e, .error f =>
      if h : e = f then isTrue (by rw [h]) else isFalse (by simp [h])
  | .ok _, .error _ => isFalse (by simp)
  | .error _, .ok _ => isFalse (by simp)

/-- `b.isPrefixOf a`-style prefix test on character lists. -/
def charsPrefix : List Char → List Char → Bool
  | [], _ => true
  | _ :: _, [] => false
  | a :: as_, b :: bs => a == b && charsPrefix as_ bs

/-- Contiguous-substring test on character lists (the empty needle is a
substring of everything, as in Python). -/
def charsSubstring (needle : List Char) : List Char → Bool
  | [] => charsPrefix needle []
  | c :: t => charsPrefix needle (c :: t) || charsSubstring needle t

/-- Python `key in data` where `data` is an arbitrary value: key membership
for a dict, substring test for a string, elementwise `==` membership for a
list, and a `TypeError` (`argument of type ... is not iterable`) for
numbers, booleans and `None`. -/
def pyContains (key : String) (data : JVal) : Except PyErr Bool :=
  match data with
  | .jobj kvs => .ok (hasKey key kvs)
  | .jstr s => .ok (charsSubstring key.data s.data)
  | .jarr xs => .ok (xs.any (fun x => pyEq (.jstr key) x))
  | _ => .error .typeError

/-- Python `data[key]` with a string key: dict lookup (a `KeyError` when the
key is missing), and a `TypeError` for every other type (`string indices
must be integers`, `list indices must be integers`, not subscriptable). -/
def pyIndexStr (data : JVal) (key : String) : Except PyErr JVal :=
  match data with
  | .jobj kvs =>
    match lookupJ key kvs with
    | some v => .ok v
    | none => .error .keyError
  | _ => .error .typeError

/-- `expected_value.get('threshold', expected_value.get('value'))`:
the value at key `'threshold'` when that key is present (even when it is
null), otherwise the value at key `'value'` when present, otherwise
Python `None`. -/
def thresholdOf (kvs : List (String × JVal)) : JVal :=
  match lookupJ "threshold" kvs with
  | some t => t
  | none =>
    match lookupJ "value" kvs with
    | some v => v
    | none => .jnull

/-- The body of one relational branch of `should_execute_script`:
`if not (isinstance(actual_value, (int, float)) and actual_value OP
threshold): return False`.  The `and` short-circuits, so a non-numeric
field value yields `False` without evaluating the comparison; when the
field value is numeric the comparison runs and may raise a `TypeError`. -/
def relCheck (cmp : JVal → JVal → Option Bool) (actual threshold : JVal) :
    Except PyErr Bool :=
  if isNum actual then
    match cmp actual threshold with
    | some b => .ok b
    | none => .error .typeError
  else .ok false

/-- Satisfaction of one condition term (lines 150–175 of
`mqtt_service.py`): `.ok true` means the loop continues to the next
condition, `.ok false` means `return False`, `.error` means a Python
exception is raised.  A dict with an `'operator'` key is an operator term
(unrecognised operator strings match no branch and fall through, i.e. the
term imposes nothing); every other expected value is a plain `!=`
comparison. -/
def checkTerm (expected actual : JVal) : Except PyErr Bool :=
  match expected with
  | .jobj kvs =>
    match lookupJ "operator" kvs with
    | some op =>
      let threshold := thresholdOf kvs
      if pyEq op (.jstr ">") then relCheck pyGt actual threshold
      else if pyEq op (.jstr "<") then relCheck pyLt actual threshold
      else if pyEq op (.jstr ">=") then relCheck pyGe actual threshold
      else if pyEq op (.jstr "<=") then relCheck pyLe actual threshold
      else if pyEq op (.jstr "==") then .ok (pyEq actual threshold)
      else if pyEq op (.jstr "!=") then .ok (!pyEq actual threshold)
      else .ok true
    | none => .ok (pyEq actual expected)
  | _ => .ok (pyEq actual expected)

/-- The `for key, expected_value in conditions.items()` loop of
`should_execute_script` over the (already parsed or fallen-back) payload
`data`: `key not in data` returns `False`, then `data[key]` is read and
the term checked; reaching the end of the loop returns `True`. -/
def evalConditions : List (String × JVal) → JVal → Except PyErr Bool
  | [], _ => .ok true
  | (key, expected) :: rest, data =>
    match pyContains key data with
    | .error e => .error e
    | .ok false => .ok false
    | .ok true =>
      match pyIndexStr data key with
      | .error e => .error e
      | .ok actual =>
        match checkTerm expected actual with
        | .error e => .error e
        | .ok false => .ok false
        | .ok true => evalConditions rest data

/-- Outcome of `json.loads(payload)` on the payload string — the parser
itself is Python library code, abstracted here: either it succeeds with a
JSON value, or it raises `json.JSONDecodeError` and the source falls back
to `data = payload`, the raw string. -/
inductive ParseResult where
  | ok (v : JVal)
  | failed (s : String)

/-- The value bound to `data` after the `try/except` block. -/
def dataOf : ParseResult → JVal
  | .ok v => v
  | .failed s => .jstr s

/-- `MQTTService.should_execute_script` (lines 129–177): empty condition
set returns `True` before any parsing; otherwise the payload's parse
outcome is consulted and the conditions are checked in order. -/
def should_execute_script (conditions : List (String × JVal))
    (payload : ParseResult) : Except PyErr Bool :=
  if conditions.isEmpty then .ok true
  else evalConditions conditions (dataOf payload)

/-- The per-key branch of `merge_configs`: a key present in the user config
whose value, in both configs, is a dict is merged recursively; any other
key present in the user config takes the user's value. -/
def mergedValue (mergeRec : List (String × JVal) → List (String × JVal) →
    List (String × JVal)) (dflt : Option JVal) (u : JVal) : JVal :=
  match dflt, u with
  | some (.jobj dv), .jobj uv => .jobj (mergeRec dv uv)
  | _, _ => u

/-- `MQTTService.merge_configs` (lines 78–86): start from a copy of the
default dict and fold the user entries over it, recursing when both sides
hold a dict at the key. -/
def merge_configs : List (String × JVal) → List (String × JVal) →
    List (String × JVal)
  | dflt, [] => dflt
  | dflt, (k, v) :: rest =>
    match lookupJ k dflt, v with
    | some (.jobj dv), .jobj uv =>
        merge_configs (setKey dflt k (.jobj (merge_configs dv uv))) rest
    | _, _ => merge_configs (setKey dflt k v) rest

/-- Outcome of the `subprocess.run([sys.executable, script_path], ...)` call
once it is reached: the child completed with an exit code and captured
streams, or `subprocess.TimeoutExpired` was raised at the configured bound,
or some other `Exception` occurred while spawning. -/
inductive RunOutcome where
  | completed (returncode : Int) (stdout stderr : String)
  | timedOut
  | spawnFailed
deriving DecidableEq

/-- How `MQTTService.execute_script` (lines 179–212) finishes: every branch
logs and returns normally; no exception escapes to the caller. -/
inductive DispatchResult where
  | skippedMissing
  | ranOk (stdout : String)
  | ranFailed (returncode : Int) (stderr : String)
  | timeoutLogged
  | errorLogged
deriving DecidableEq

/-- `MQTTService.execute_script`: the only guard before the invocation is
`os.path.exists(script_path)`; the execute permission of the script file is
never inspected (the script is run through the Python interpreter), so the
`path_executable` argument influences nothing. -/
def execute_script (path_exists path_executable : Bool)
    (run : RunOutcome) : DispatchResult :=
  if !path_exists then .skippedMissing
  else
    match run with
    | .completed rc out err => if rc == 0 then .ranOk out else .ranFailed rc err
    | .timedOut => .timeoutLogged
    | .spawnFailed => .errorLogged

/-- Whether a handler invocation was attempted, i.e. whether control reached
the `subprocess.run` call: exactly the non-`skippedMissing` results. -/
def dispatchInvoked : DispatchResult → Bool
  | .skippedMissing => false
  | _ => true

-- Smoke tests (evaluation of the model on concrete values).
example : pyEq (.jstr "online") (.jstr "online") = true := by decide
example : pyEq (.jnum 1) (.jstr "1") = false := by decide
example : pyEq (.jbool true) (.jnum 1) = true := by decide
example : pyGt (.jnum 30) (.jstr "hot") = none := by decide
example :
    should_execute_script [("temperature", .jobj [("operator", .jstr ">"), ("threshold", .jnum 30)])]
      (.ok (.jobj [("temperature", .jnum 33)])) = .ok true := by decide
example :
    should_execute_script [("temperature", .jobj [("operator", .jstr ">"), ("threshold", .jnum 30)])]
      (.ok (.jobj [("temperature", .jnum 20)])) = .ok false := by decide
example :
    should_execute_script [("status", .jstr "offline")] (.failed "not-json") = .ok false := by decide
example :
    should_execute_script [("status", .jstr "offline")] (.failed "status is bad") = .error .typeError := by
  decide
example :
    merge_configs [("a", .jnum 1), ("b", .jobj [("x", .jnum 2)])]
      [("b", .jobj [("y", .jnum 3)]), ("c", .jnull)]
      = [("a", .jnum 1), ("b", .jobj [("x", .jnum 2), ("y", .jnum 3)]), ("c", .jnull)] := by
  simp [merge_configs, lookupJ, setKey]

/-! ### Helper lemmas -/

lemma pyEq_str_str (a b : String) : pyEq (.jstr a) (.jstr b) = (a == b) := rfl

lemma pyEq_num_str (q : ℚ) (s : String) : pyEq (.jnum q) (.jstr s) = false := rfl

lemma pyEq_str_num (s : String) (q : ℚ) : pyEq (.jstr s) (.jnum q) = false := rfl

lemma hasKey_eq_isSome_lookupJ (k : String) (kvs : List (String × JVal)) :
    hasKey k kvs = (lookupJ k kvs).isSome := by
  induction kvs with
  | nil => rfl
  | cons kv rest ih =>
    obtain ⟨k', v⟩ := kv
    by_cases h : k' = k <;>
      simp [hasKey, lookupJ, h, List.any_cons, ← ih]

lemma lookupJ_eq_none_of_not_mem (k : String) (kvs : List (String × JVal))
    (h : k ∉ kvs.map Prod.fst) : lookupJ k kvs = none := by
  induction kvs with
  | nil => rfl
  | cons kv rest ih =>
    obtain ⟨k', v⟩ := kv
    simp only [List.map_cons, List.mem_cons] at h
    push_neg at h
    simp [lookupJ, Ne.symm h.1, ih h.2]

lemma lookupJ_setKey_self (l : List (String × JVal)) (k : String) (v : JVal) :
    lookupJ k (setKey l k v) = some v := by
  induction l with
  | nil => simp [setKey, lookupJ]
  | cons kv rest ih =>
    obtain ⟨k', v'⟩ := kv
    by_cases h : k' = k <;> simp [setKey, lookupJ, h, ih]

lemma lookupJ_setKey_ne (l : List (String × JVal)) (k k' : String) (v : JVal)
    (h : k' ≠ k) : lookupJ k' (setKey l k v) = lookupJ k' l := by
  induction l with
  | nil => simp [setKey, lookupJ, Ne.symm h]
  | cons kv rest ih =>
    obtain ⟨k'', v''⟩ := kv
    by_cases h2 : k'' = k <;> by_cases h3 : k'' = k' <;>
      simp_all [setKey, lookupJ, Ne.symm h]

/-- One unrolling of the `merge_configs` fold, phrased through `mergedValue`. -/
lemma merge_configs_cons (dflt : List (String × JVal)) (k : String) (v : JVal)
    (rest : List (String × JVal)) :
    merge_configs dflt ((k, v) :: rest)
      = merge_configs (setKey dflt k (mergedValue merge_configs (lookupJ k dflt) v)) rest := by
  cases hL : lookupJ k dflt with
  | none => cases v <;> simp [merge_configs, mergedValue, hL]
  | some d => cases d <;> cases v <;> simp [merge_configs, mergedValue, hL]

/-- The evaluation loop on a parsed key-value record is a pure conjunction:
it yields `True` exactly when every condition key is present and its term
is satisfied. -/
lemma evalConditions_obj_iff (C kvs : List (String × JVal)) :
    evalConditions C (.jobj kvs) = .ok true ↔
      ∀ p ∈ C, ∃ v, lookupJ p.1 kvs = some v ∧ checkTerm p.2 v = .ok true := by
  induction C with
  | nil => simp [evalConditions]
  | cons hd rest ih =>
    obtain ⟨f, term⟩ := hd
    rw [evalConditions]
    cases hHas : lookupJ f kvs with
    | none =>
      have : hasKey f kvs = false := by
        simp [hasKey_eq_isSome_lookupJ, hHas]
      simp only [pyContains, this]
      constructor
      · intro h; cases h
      · intro h
        rcases h (f, term) (List.mem_cons_self _ _) with ⟨v, hv, -⟩
        rw [hHas] at hv; cases hv
    | some v =>
      have hHas' : hasKey f kvs = true := by
        simp [hasKey_eq_isSome_lookupJ, hHas]
      simp only [pyContains, hHas', pyIndexStr, hHas]
      cases hTerm : checkTerm term v with
      | error e =>
        constructor
        · intro h; cases h
        · intro h
          rcases h (f, term) (List.mem_cons_self _ _) with ⟨v', hv', hT'⟩
          rw [hHas] at hv'; cases hv'
          rw [hTerm] at hT'; cases hT'
      | ok b =>
        cases b with
        | false =>
          constructor
          · intro h; cases h
          · intro h
            rcases h (f, term) (List.mem_cons_self _ _) with ⟨v', hv', hT'⟩
            rw [hHas] at hv'; cases hv'
            rw [hTerm] at hT'; cases hT'
        | true =>
          rw [ih]
          constructor
          · intro h p hp
            rcases List.mem_cons.mp hp with hp | hp
            · cases hp; exact ⟨v, hHas, hTerm⟩
            · exact h p hp
          · intro h p hp
            exact h p (List.mem_cons_of_mem _ hp)

/-! ### Claim theorems -/

/-- C1: the spec requires that, for a non-empty condition set and a payload
that is not parseable as JSON, evaluation returns false and raises no
exception.  The code does return `False` when no condition key occurs in the
payload text, but `key not in data` on the fallback string is a substring
test, and when the key does occur, `data[key]` on a string with a string
index raises `TypeError`.  Payload `"status is bad"` with condition key
`"status"` exhibits the exception; the spec's behaviour is clearly the
intent (§7 calls this case a non-match, not an exception), so this is a bug
in the code. -/
theorem nonjson_payload_behaviour :
    should_execute_script [("status", .jstr "offline")] (.failed "not-json")
        = .ok false
    ∧ should_execute_script [("status", .jstr "offline")] (.failed "status is bad")
        = .error .typeError :=
  ⟨by decide, by decide⟩

/-- C2 counterexample: the claim says a type mismatch in a relational term
makes the term fail without raising; but with a numeric field value and a
non-numeric threshold the code evaluates `30 > "hot"`, which raises
`TypeError` — the threshold's type is never checked. -/
theorem gt_numeric_value_string_threshold_raises :
    should_execute_script
        [("temperature", .jobj [("operator", .jstr ">"), ("threshold", .jstr "hot")])]
        (.ok (.jobj [("temperature", .jnum 30)]))
      = .error .typeError := by decide

/-- C2 (amended): for a relational operator term, a non-numeric field value
makes the term fail (overall false) without an error, whatever the
threshold; and for operator `>` with a numeric threshold `t` the term is
satisfied exactly when the field value is numeric with value `v` and
`v > t`.  (The unamendable part — that a numeric field value with a
non-numeric threshold also fails quietly — is refuted by the
counterexample: there the code raises.) -/
theorem relational_term_characterization :
    (∀ (t : ℚ) (actual : JVal),
        checkTerm (.jobj [("operator", .jstr ">"), ("threshold", .jnum t)]) actual
          = .ok (match toNum actual with
                 | some v => decide (t < v)
                 | none => false))
    ∧ (∀ op : String, op ∈ ([">", "<", ">=", "<="] : List String) →
        ∀ (thr actual : JVal), toNum actual = none →
          checkTerm (.jobj [("operator", .jstr op), ("threshold", thr)]) actual
            = .ok false) := by
  constructor
  · intro t actual
    cases actual <;>
      simp [checkTerm, thresholdOf, lookupJ, relCheck, pyGt, toNum, isNum, pyEq]
  · intro op hop thr actual hnum
    fin_cases hop <;>
      simp [checkTerm, thresholdOf, lookupJ, relCheck, isNum, hnum, pyEq]

/-- Witness for C2's amended theorem at concrete inputs. -/
theorem relational_term_characterization_witness :
    checkTerm (.jobj [("operator", .jstr ">"), ("threshold", .jnum 25)]) (.jnum 30)
        = .ok true
    ∧ checkTerm (.jobj [("operator", .jstr "<"), ("threshold", .jnum 25)]) (.jstr "cold")
        = .ok false := by
  constructor
  · have h := relational_term_characterization.1 25 (.jnum 30)
    simpa using h
  · exact relational_term_characterization.2 "<" (by decide) (.jnum 25) (.jstr "cold") rfl

/-- C3 counterexample: the claim's consequence "any referenced field absent
from the payload makes the overall result false" fails: here field `"b"` is
absent, but an earlier relational term with a non-numeric threshold raises,
so evaluation ends in an exception, not `False`. -/
theorem absent_field_result_not_always_false :
    lookupJ "b" [("a", JVal.jnum 5)] = none
    ∧ should_execute_script
        [("a", .jobj [("operator", .jstr ">"), ("threshold", .jstr "x")]),
         ("b", .jnum 1)]
        (.ok (.jobj [("a", .jnum 5)]))
      = .error .typeError :=
  ⟨rfl, by decide⟩

/-- C3 (amended): on a payload parsed to a key-value record, evaluation
returns true exactly when every (field, term) pair of the condition set has
the field present and the term satisfied by the field's value (a pure
conjunction); consequently, when some referenced field is absent the result
is never true (it is false unless an earlier mismatched relational term
raises, as in the counterexample). -/
theorem eval_record_conjunction (C kvs : List (String × JVal)) :
    (should_execute_script C (.ok (.jobj kvs)) = .ok true ↔
      ∀ p ∈ C, ∃ v, lookupJ p.1 kvs = some v ∧ checkTerm p.2 v = .ok true)
    ∧ (∀ f term, (f, term) ∈ C → lookupJ f kvs = none →
        should_execute_script C (.ok (.jobj kvs)) ≠ .ok true) := by
  have base : should_execute_script C (.ok (.jobj kvs))
      = evalConditions C (.jobj kvs) := by
    cases C <;> simp [should_execute_script, dataOf, evalConditions]
  constructor
  · rw [base]; exact evalConditions_obj_iff C kvs
  · intro f term hmem hnone h
    rw [base, evalConditions_obj_iff] at h
    rcases h (f, term) hmem with ⟨v, hv, -⟩
    rw [hnone] at hv; cases hv

/-- Witness for C3's amended theorem at a concrete record. -/
theorem eval_record_conjunction_witness :
    should_execute_script [("status", .jstr "on")]
      (.ok (.jobj [("status", .jstr "on")])) = .ok true :=
  (eval_record_conjunction [("status", .jstr "on")] [("status", .jstr "on")]).1.mpr
    (by
      intro p hp
      simp only [List.mem_singleton] at hp
      subst hp
      exact ⟨.jstr "on", rfl, by decide⟩)

/-- C4: the empty condition set evaluates to true on every payload,
parseable or not — the source returns before even looking at the payload. -/
theorem empty_conditions_always_match (p : ParseResult) :
    should_execute_script [] p = .ok true := rfl

/-- Witness for C4 on a malformed payload. -/
theorem empty_conditions_always_match_witness :
    should_execute_script [] (.failed "not-json") = .ok true :=
  empty_conditions_always_match (.failed "not-json")

/-- C5: literal condition terms use Python `==`, which is type-sensitive
between numbers and strings: a numeric value never equals any string, in
either orientation; in particular the spec's two examples hold. -/
theorem literal_match_type_sensitive :
    (∀ (q : ℚ) (s : String),
        checkTerm (.jnum q) (.jstr s) = .ok false
        ∧ checkTerm (.jstr s) (.jnum q) = .ok false)
    ∧ should_execute_script [("status", .jstr "online")]
        (.ok (.jobj [("status", .jstr "online")])) = .ok true
    ∧ should_execute_script [("status", .jnum 1)]
        (.ok (.jobj [("status", .jstr "1")])) = .ok false :=
  ⟨fun _ _ => ⟨rfl, rfl⟩, by decide, by decide⟩

/-- Witness for C5 at the spec's concrete example. -/
theorem literal_match_type_sensitive_witness :
    checkTerm (.jnum 1) (.jstr "1") = .ok false :=
  (literal_match_type_sensitive.1 1 "1").1

/-- C7 counterexample: the claim covers a handler that exists but is not
executable; the source only tests `os.path.exists` and never the execute
permission, so such a handler is still invoked (through the interpreter)
rather than skipped. -/
theorem existing_nonexecutable_script_invoked :
    execute_script true false (.completed 0 "out" "") = .ranOk "out"
    ∧ dispatchInvoked (execute_script true false (.completed 0 "out" "")) = true :=
  ⟨rfl, rfl⟩

/-- C7 (amended): when the handler path does not exist the dispatcher logs,
performs no invocation and returns normally, whatever the execute permission
or the would-be run outcome; executability itself is never checked. -/
theorem missing_script_skipped (path_executable : Bool) (run : RunOutcome) :
    execute_script false path_executable run = .skippedMissing
    ∧ dispatchInvoked (execute_script false path_executable run) = false :=
  ⟨rfl, rfl⟩

/-- Witness for C7's amended theorem. -/
theorem missing_script_skipped_witness :
    execute_script false true .timedOut = .skippedMissing
    ∧ dispatchInvoked (execute_script false true .timedOut) = false :=
  missing_script_skipped true .timedOut

/-- C8: the loaded configuration is the recursive key-by-key merge of the
user configuration over the defaults: a key absent from the user config
keeps the default value, and a key present in the user config gets
`mergedValue` — a recursive merge when both sides hold a record, the user's
value otherwise. -/
theorem merge_configs_lookup (U : List (String × JVal))
    (hU : (U.map Prod.fst).Nodup) (dflt : List (String × JVal)) (k : String) :
    (lookupJ k U = none → lookupJ k (merge_configs dflt U) = lookupJ k dflt)
    ∧ (∀ u, lookupJ k U = some u →
        lookupJ k (merge_configs dflt U)
          = some (mergedValue merge_configs (lookupJ k dflt) u)) := by
  induction U generalizing dflt k with
  | nil =>
    exact ⟨fun _ => by simp [merge_configs],
      fun u hu => by simp [lookupJ] at hu⟩
  | cons kv rest ih =>
    obtain ⟨k0, v0⟩ := kv
    simp only [List.map_cons, List.nodup_cons] at hU
    obtain ⟨hk0, hrest⟩ := hU
    rw [merge_configs_cons]
    by_cases hkk : k0 = k
    · subst hkk
      refine ⟨?_, ?_⟩
      · intro habs; simp [lookupJ] at habs
      · intro u hu
        have hu' : v0 = u := by simpa [lookupJ] using hu
        subst hu'
        have hnone : lookupJ k0 rest = none :=
          lookupJ_eq_none_of_not_mem _ _ hk0
        rw [(ih hrest _ k0).1 hnone, lookupJ_setKey_self]
    · have hcons : lookupJ k ((k0, v0) :: rest) = lookupJ k rest := by
        simp [lookupJ, hkk]
      have hne : k ≠ k0 := fun he => hkk he.symm
      refine ⟨?_, ?_⟩
      · intro hnone
        rw [hcons] at hnone
        rw [(ih hrest _ k).1 hnone, lookupJ_setKey_ne _ _ _ _ hne]
      · intro u hu
        rw [hcons] at hu
        rw [(ih hrest _ k).2 u hu, lookupJ_setKey_ne _ _ _ _ hne]

/-- Witness for C8 at concrete configurations. -/
theorem merge_configs_lookup_witness :
    lookupJ "mqtt" (merge_configs
        [("mqtt", .jobj [("broker", .jstr "localhost"), ("port", .jnum 1883)])]
        [("mqtt", .jobj [("port", .jnum 8883)])])
      = some (mergedValue merge_configs
          (lookupJ "mqtt"
            [("mqtt", .jobj [("broker", .jstr "localhost"), ("port", .jnum 1883)])])
          (.jobj [("port", .jnum 8883)])) :=
  (merge_configs_lookup [("mqtt", .jobj [("port", .jnum 8883)])] (by decide)
      [("mqtt", .jobj [("broker", .jstr "localhost"), ("port", .jnum 1883)])]
      "mqtt").2 (.jobj [("port", .jnum 8883)]) rfl

/-- C9: an operator term whose operator string is none of the six recognised
ones matches no branch of the if/elif chain, so the loop just continues: the
term is vacuously satisfied for every field value, and with the field
present it imposes no constraint on the overall evaluation. -/
theorem unknown_operator_imposes_nothing (kvs : List (String × JVal))
    (s : String)
    (hs : s ∉ ([">", "<", ">=", "<=", "==", "!="] : List String))
    (hop : lookupJ "operator" kvs = some (.jstr s)) :
    (∀ actual, checkTerm (.jobj kvs) actual = .ok true)
    ∧ ∀ (f : String) (rest data : List (String × JVal)) (v : JVal),
        lookupJ f data = some v →
        evalConditions ((f, .jobj kvs) :: rest) (.jobj data)
          = evalConditions rest (.jobj data) := by
  simp only [List.mem_cons, List.mem_singleton, not_or] at hs
  obtain ⟨h1, h2, h3, h4, h5, h6⟩ := hs
  have hterm : ∀ actual, checkTerm (.jobj kvs) actual = .ok true := by
    intro actual
    simp [checkTerm, hop, pyEq_str_str, beq_iff_eq, h1, h2, h3, h4, h5, h6]
  refine ⟨hterm, ?_⟩
  intro f rest data v hlook
  have hHas : hasKey f data = true := by
    simp [hasKey_eq_isSome_lookupJ, hlook]
  rw [evalConditions]
  simp [pyContains, hHas, pyIndexStr, hlook, hterm v]

/-- Witness for C9 with the unrecognised operator string `between`. -/
theorem unknown_operator_imposes_nothing_witness :
    checkTerm (.jobj [("operator", .jstr "between")]) (.jstr "x") = .ok true
    ∧ evalConditions [("f", .jobj [("operator", .jstr "between")])]
        (.jobj [("f", .jnull)])
      = evalConditions [] (.jobj [("f", .jnull)]) := by
  have h := unknown_operator_imposes_nothing [("operator", .jstr "between")]
    "between" (by decide) rfl
  exact ⟨h.1 (.jstr "x"), h.2 "f" [] [("f", .jnull)] .jnull rfl⟩

/-- C10: the comparison threshold of an operator term comes from the
`'threshold'` key, falls back to the `'value'` key when `'threshold'` is
absent, and to Python `None` when both are absent; and a term spelled with
`'threshold'` evaluates exactly like the same term spelled with `'value'`. -/
theorem threshold_value_spellings (kvs : List (String × JVal)) :
    (∀ t, lookupJ "threshold" kvs = some t → thresholdOf kvs = t)
    ∧ (∀ v, lookupJ "threshold" kvs = none → lookupJ "value" kvs = some v →
        thresholdOf kvs = v)
    ∧ (lookupJ "threshold" kvs = none → lookupJ "value" kvs = none →
        thresholdOf kvs = .jnull)
    ∧ ∀ (op thr actual : JVal),
        checkTerm (.jobj [("operator", op), ("threshold", thr)]) actual
          = checkTerm (.jobj [("operator", op), ("value", thr)]) actual := by
  refine ⟨?_, ?_, ?_, ?_⟩
  · intro t ht; simp [thresholdOf, ht]
  · intro v ht hv; simp [thresholdOf, ht, hv]
  · intro ht hv; simp [thresholdOf, ht, hv]
  · intro op thr actual
    simp [checkTerm, thresholdOf, lookupJ]

/-- Witness for C10 at concrete terms. -/
theorem threshold_value_spellings_witness :
    thresholdOf [("operator", .jstr ">"), ("threshold", .jnum 25)] = .jnum 25
    ∧ thresholdOf [("operator", .jstr ">"), ("value", .jnum 25)] = .jnum 25
    ∧ thresholdOf [("operator", .jstr ">")] = .jnull
    ∧ checkTerm (.jobj [("operator", .jstr ">"), ("threshold", .jnum 25)]) (.jnum 30)
        = checkTerm (.jobj [("operator", .jstr ">"), ("value", .jnum 25)]) (.jnum 30) := by
  refine ⟨?_, ?_, ?_, ?_⟩
  · exact (threshold_value_spellings
      [("operator", .jstr ">"), ("threshold", .jnum 25)]).1 (.jnum 25) rfl
  · exact (threshold_value_spellings
      [("operator", .jstr ">"), ("value", .jnum 25)]).2.1 (.jnum 25) rfl rfl
  · exact (threshold_value_spellings [("operator", .jstr ">")]).2.2.1 rfl rfl
  · exact (threshold_value_spellings []).2.2.2 (.jstr ">") (.jnum 25) (.jnum 30)

end MQTT
